import Mathlib

/-!
Verification of the Teleparty load-and-query pipeline (`assignment.py`).

The program is a linear pipeline over a SQLite database:
schema initialization (`create_database_and_tables`), a bulk load of two
CSV sources (`ingest_data`), and four read-only report queries
(`run_reports`).  This file shallowly embeds the pipeline: CSV rows are
structures of strings, the relevant CPython string/number conversions are
modelled as Lean functions, the database is a pair of in-memory tables,
and SQLite statement semantics (unique indexes with distinct NULLs,
`INSERT OR IGNORE`, NULL-last/NULL-first ordering, `COUNT(DISTINCT _)`)
are modelled explicitly.  `REAL` columns are modelled as `ℚ`: every
numeric literal exercised here is exactly representable as an IEEE
double, so comparisons agree.
-/

namespace Teleparty

/-! ## CPython string and conversion model -/

/-- Decimal value of a character with Unicode property `Numeric_Type=Decimal`
(category `Nd`), the characters `int()` accepts as digits.  Modelled ranges:
ASCII `0`-`9` and Arabic-Indic `U+0660`-`U+0669`; other `Nd` ranges behave
the same way and are not exercised by the program's data. -/
def pyCharDecimalVal (c : Char) : Option Nat :=
  if '0' ≤ c && c ≤ '9' then some (c.toNat - '0'.toNat)
  else if 0x660 ≤ c.toNat && c.toNat ≤ 0x669 then some (c.toNat - 0x660)
  else none

/-- Character test used by `str.isdigit`: true for `Numeric_Type=Decimal`
characters and also for `Numeric_Type=Digit` characters that `int()`
rejects, such as the superscripts `¹ ² ³` (modelled subset). -/
def pyCharIsDigit (c : Char) : Bool :=
  (pyCharDecimalVal c).isSome || decide (c = '¹') || decide (c = '²') || decide (c = '³')

/-- CPython `str.isdigit`: nonempty and every character is a digit character. -/
def pyStrIsDigit (s : String) : Bool :=
  !s.data.isEmpty && s.data.all pyCharIsDigit

/-- Value of a possibly empty run of decimal digit characters. -/
def decDigitsValAllowEmpty (cs : List Char) : Option Nat :=
  if cs.all (fun c => (pyCharDecimalVal c).isSome) then
    some (cs.foldl (fun a c => a * 10 + ((pyCharDecimalVal c).getD 0)) 0)
  else none

/-- Value of a nonempty run of decimal digit characters. -/
def decDigitsVal (cs : List Char) : Option Nat :=
  if cs.isEmpty then none else decDigitsValAllowEmpty cs

/-- CPython `int(s)` on the strings the loader feeds it: a nonempty run of
decimal digit characters.  (Signs, surrounding whitespace and underscore
grouping are accepted by CPython but never reach `int()` here: the call
sites are guarded by `isdigit` or feed comma-stripped count fields.) -/
def pyInt (s : String) : Option Int :=
  (decDigitsVal s.data).map (fun n => (n : Int))

/-- Split a character list at `.` separators, mirroring `str.split` with a
single-character separator. -/
def splitOnDot : List Char → List (List Char)
  | [] => [[]]
  | c :: rest =>
    let r := splitOnDot rest
    if c = '.' then [] :: r
    else
      match r with
      | [] => [[c]]
      | h :: t => (c :: h) :: t

/-- CPython `float(s)` on plain decimal literals `digits[.digits]` (the only
shape the sources contain; signs, exponents and `inf`/`nan` are out of the
modelled subset), returned as the exactly-represented rational. -/
def pyFloat (s : String) : Option ℚ :=
  match splitOnDot s.data with
  | [ip] => (decDigitsVal ip).map (fun n => mkRat (n : Int) 1)
  | [ip, fp] =>
    if ip.isEmpty && fp.isEmpty then none
    else
      match decDigitsValAllowEmpty ip, decDigitsValAllowEmpty fp with
      | some a, some b =>
        some (mkRat ((a * 10 ^ fp.length + b : Nat) : Int) (10 ^ fp.length))
      | _, _ => none
  | _ => none

/-- CPython `s.replace(',', '')`: remove every comma. -/
def pyStripCommas (s : String) : String :=
  ⟨s.data.filter (fun c => decide (c ≠ ','))⟩

/-! ## Data model -/

/-- A raw row of `all-series-ep-average.csv` (fields as read by
`csv.DictReader`; the source column `Rating Count` is field
`RatingCount`). -/
structure ShowCsvRow where
  Code : String
  Title : String
  Rating : String
  RatingCount : String
  Rank : String
deriving DecidableEq

/-- A raw row of `all-episode-ratings.csv`. -/
structure EpisodeCsvRow where
  id_code : String
  Code : String
  Season : String
  Episode : String
  Rating : String
deriving DecidableEq

/-- A row of the `shows` table (schema of `create_database_and_tables`). -/
structure ShowsRow where
  Code : String
  Title : String
  Rating : Option ℚ
  RatingCount : Option Int
  Rank : Option Int
deriving DecidableEq

/-- A row of the `episodes` table. -/
structure EpisodesRow where
  id_code : String
  parent_code : String
  Season : Option Int
  Episode : Option Int
  Rating : Option ℚ
deriving DecidableEq

/-- Python-level error outcomes caught by the `__main__` handler. -/
inductive PyError where
  | fileNotFound
  | valueError
  | integrityError
  | operationalError
deriving DecidableEq

/-- The committed state of `teleparty.db`: each table either absent or
present with its rows in insertion order. -/
structure Store where
  shows : Option (List ShowsRow)
  episodes : Option (List EpisodesRow)
deriving DecidableEq

/-- The state right after a successful `create_database_and_tables`. -/
def freshStore : Store := { shows := some [], episodes := some [] }

/-! ## Schema initializer (`create_database_and_tables`, lines 5-47) -/

/-- `DROP TABLE IF EXISTS shows` (line 14): never an error. -/
def dropTableIfExistsShows (st : Store) : Store := { st with shows := none }

/-- `DROP TABLE IF EXISTS episodes` (line 15). -/
def dropTableIfExistsEpisodes (st : Store) : Store := { st with episodes := none }

/-- `CREATE TABLE shows (...)` (lines 19-27): errors if the table exists. -/
def createTableShows (st : Store) : Except PyError Store :=
  match st.shows with
  | some _ => .error .operationalError
  | none => .ok { st with shows := some [] }

/-- `CREATE TABLE episodes (...)` (lines 33-43). -/
def createTableEpisodes (st : Store) : Except PyError Store :=
  match st.episodes with
  | some _ => .error .operationalError
  | none => .ok { st with episodes := some [] }

/-- `create_database_and_tables` (lines 5-47): drop both tables if present,
then create both; the DDL is committed by the end of the function. -/
def create_database_and_tables (st : Store) : Except PyError Store :=
  match createTableShows (dropTableIfExistsEpisodes (dropTableIfExistsShows st)) with
  | .error e => .error e
  | .ok st1 => createTableEpisodes st1

/-! ## Loader (`ingest_data`, lines 49-99) -/

/-- Line 63: `int(row['Rating Count'].replace(',', '')) if row['Rating Count'] else None`. -/
def parseRatingCountField (s : String) : Except PyError (Option Int) :=
  if s ≠ "" then
    match pyInt (pyStripCommas s) with
    | some n => .ok (some n)
    | none => .error .valueError
  else .ok none

/-- Lines 68 and 90: `float(row['Rating']) if row['Rating'] else None`. -/
def parseRatingField (s : String) : Except PyError (Option ℚ) :=
  if s ≠ "" then
    match pyFloat s with
    | some q => .ok (some q)
    | none => .error .valueError
  else .ok none

/-- Line 70: `int(row['Rank']) if row['Rank'] else None`. -/
def parseRankField (s : String) : Except PyError (Option Int) :=
  if s ≠ "" then
    match pyInt s with
    | some n => .ok (some n)
    | none => .error .valueError
  else .ok none

/-- Lines 88-89: `int(row['Season']) if row['Season'].isdigit() else None`
(same for `Episode`).  Note the guard is `isdigit`, not decimal-ness, so
`int()` can still raise inside the accepted branch. -/
def parseSeasonEpisodeField (s : String) : Except PyError (Option Int) :=
  if pyStrIsDigit s then
    match pyInt s with
    | some n => .ok (some n)
    | none => .error .valueError
  else .ok none

/-- One iteration of the show loop (lines 61-71), in source evaluation
order: `Rating Count` first (line 63), then the tuple fields. -/
def parseShowCsvRow (r : ShowCsvRow) : Except PyError ShowsRow :=
  match parseRatingCountField r.RatingCount with
  | .error e => .error e
  | .ok rc =>
    match parseRatingField r.Rating with
    | .error e => .error e
    | .ok rating =>
      match parseRankField r.Rank with
      | .error e => .error e
      | .ok rank => .ok ⟨r.Code, r.Title, rating, rc, rank⟩

/-- The show loop building `to_db` (lines 60-71): stops at the first row
whose conversion raises. -/
def parseShowRows : List ShowCsvRow → Except PyError (List ShowsRow)
  | [] => .ok []
  | r :: rs =>
    match parseShowCsvRow r with
    | .error e => .error e
    | .ok row =>
      match parseShowRows rs with
      | .error e => .error e
      | .ok rows => .ok (row :: rows)

/-- One iteration of the episode loop (lines 84-91). -/
def parseEpisodeCsvRow (r : EpisodeCsvRow) : Except PyError EpisodesRow :=
  match parseSeasonEpisodeField r.Season with
  | .error e => .error e
  | .ok season =>
    match parseSeasonEpisodeField r.Episode with
    | .error e => .error e
    | .ok episode =>
      match parseRatingField r.Rating with
      | .error e => .error e
      | .ok rating => .ok ⟨r.id_code, r.Code, season, episode, rating⟩

/-- The episode loop building `to_db` (lines 83-91). -/
def parseEpisodeRows : List EpisodeCsvRow → Except PyError (List EpisodesRow)
  | [] => .ok []
  | r :: rs =>
    match parseEpisodeCsvRow r with
    | .error e => .error e
    | .ok row =>
      match parseEpisodeRows rs with
      | .error e => .error e
      | .ok rows => .ok (row :: rows)

/-- One `INSERT INTO shows` of the `executemany` at lines 72-75: `Code` is
a `TEXT PRIMARY KEY`, so a row whose code is already present raises
`sqlite3.IntegrityError`. -/
def insertShowRow (tbl : List ShowsRow) (row : ShowsRow) : Except PyError (List ShowsRow) :=
  if tbl.any (fun t => decide (t.Code = row.Code)) then .error .integrityError
  else .ok (tbl ++ [row])

/-- `cursor.executemany` over the shows batch (lines 72-75): inserts in
order, stopping at the first primary-key violation. -/
def executemanyShowsFold : List ShowsRow → List ShowsRow → Except PyError (List ShowsRow)
  | tbl, [] => .ok tbl
  | tbl, row :: rows =>
    match insertShowRow tbl row with
    | .error e => .error e
    | .ok tbl2 => executemanyShowsFold tbl2 rows

/-- The `(parent_code, Season, Episode)` primary-key tuple of an episode row. -/
def episodeKey (e : EpisodesRow) : String × Option Int × Option Int :=
  (e.parent_code, e.Season, e.Episode)

/-- Whether two episode rows collide on the composite primary key.  The
`episodes` table is an ordinary rowid table, so SQLite permits NULLs in the
primary-key columns and its unique index treats NULLs as distinct: rows
conflict only when all three key parts are equal with `Season` and
`Episode` both non-NULL. -/
def epKeyConflict (a b : EpisodesRow) : Bool :=
  match a.Season, a.Episode, b.Season, b.Episode with
  | some s1, some e1, some s2, some e2 =>
    decide (a.parent_code = b.parent_code) && decide (s1 = s2) && decide (e1 = e2)
  | _, _, _, _ => false

/-- One `INSERT OR IGNORE INTO episodes` (lines 92-95): a row colliding
with an existing row on the composite key is silently skipped. -/
def insertOrIgnoreEpisode (tbl : List EpisodesRow) (row : EpisodesRow) : List EpisodesRow :=
  if tbl.any (fun t => epKeyConflict t row) then tbl else tbl ++ [row]

/-- `cursor.executemany` over the episodes batch (lines 92-95). -/
def executemanyInsertEpisodes (tbl : List EpisodesRow) (rows : List EpisodesRow) : List EpisodesRow :=
  rows.foldl insertOrIgnoreEpisode tbl

/-- `ingest_data` (lines 49-99).  The function runs in the Python `sqlite3`
module's legacy transaction mode: an implicit transaction is opened before
the first `INSERT` and committed only by the single `conn.commit()` at
line 98, after both batches.  Any error raised before that line (missing
file, conversion error, constraint violation) propagates out, the
transaction is rolled back when the abandoned connection closes, and the
committed store is left unchanged; so the result is the committed store
paired with the raised error, if any. -/
def ingest_data (showSrc : Option (List ShowCsvRow)) (epSrc : Option (List EpisodeCsvRow))
    (st : Store) : Store × Option PyError :=
  match showSrc with
  | none => (st, some .fileNotFound)
  | some srows =>
    match parseShowRows srows with
    | .error e => (st, some e)
    | .ok parsed =>
      match st.shows with
      | none => (st, some .operationalError)
      | some showsTbl =>
        match executemanyShowsFold showsTbl parsed with
        | .error e => (st, some e)
        | .ok showsTbl2 =>
          match epSrc with
          | none => (st, some .fileNotFound)
          | some erows =>
            match parseEpisodeRows erows with
            | .error e => (st, some e)
            | .ok eparsed =>
              match st.episodes with
              | none => (st, some .operationalError)
              | some epsTbl =>
                ({ shows := some showsTbl2,
                   episodes := some (executemanyInsertEpisodes epsTbl eparsed) }, none)

/-- The `__main__` block (lines 203-219): initialize the schema, ingest,
and run the reports only when both earlier phases finished without an
exception.  Returns the committed store and whether `run_reports` executed. -/
def mainRun (st0 : Store) (showSrc : Option (List ShowCsvRow))
    (epSrc : Option (List EpisodeCsvRow)) : Store × Bool :=
  match create_database_and_tables st0 with
  | .error _ => (st0, false)
  | .ok st1 =>
    match ingest_data showSrc epSrc st1 with
    | (st2, some _) => (st2, false)
    | (st2, none) => (st2, true)

/-! ## Reporter (`run_reports`, lines 101-201)

SQLite `ORDER BY` compares NULL as smaller than every value (so `DESC`
puts NULLs last and `ASC` puts them first), and a SQL `WHERE col <= 5.0`
filter drops NULL rows (the comparison yields NULL). -/

/-- SQLite `ORDER BY` comparison on a nullable `REAL` column: NULL is
smaller than every value. -/
def sqlLeOptQ : Option ℚ → Option ℚ → Bool
  | none, _ => true
  | some _, none => false
  | some x, some y => decide (x ≤ y)

/-- SQLite `ORDER BY` comparison on a nullable `INTEGER` column. -/
def sqlLeOptInt : Option Int → Option Int → Bool
  | none, _ => true
  | some _, none => false
  | some x, some y => decide (x ≤ y)

/-- Strict version of `sqlLeOptInt`. -/
def sqlLtOptInt : Option Int → Option Int → Bool
  | none, none => false
  | none, some _ => true
  | some _, none => false
  | some x, some y => decide (x < y)

/-- The `WHERE Rating <= 5.0` predicate (lines 115 and 131): NULL ratings
compare to NULL and are filtered out. -/
def lowRatedB (s : ShowsRow) : Bool :=
  match s.Rating with
  | some r => decide (r ≤ 5)
  | none => false

/-- The shows passing `WHERE Rating <= 5.0`, in table order. -/
def lowRated (shows : List ShowsRow) : List ShowsRow :=
  shows.filter lowRatedB

/-- Row order of `ORDER BY Rating DESC` (line 116): `a` before `b` when
`b.Rating ≤ a.Rating` under the SQLite NULL-smallest order. -/
def q1le (a b : ShowsRow) : Prop := sqlLeOptQ b.Rating a.Rating = true

instance : DecidableRel q1le := fun a b =>
  inferInstanceAs (Decidable (sqlLeOptQ b.Rating a.Rating = true))

/-- Query 1 (lines 112-117): shows with `Rating <= 5.0`, sorted by rating
descending. -/
def query1 (shows : List ShowsRow) : List ShowsRow :=
  List.insertionSort q1le (lowRated shows)

/-- A printed line of the Query-1 block (lines 119-123). -/
inductive Q1Line where
  | entry (title : String) (rating : Option ℚ)
  | noneFound
deriving DecidableEq

/-- The Query-1 output block: one line per result row, or the explicit
`No shows found with a rating of 5 or less.` line when empty. -/
def report1 (shows : List ShowsRow) : List Q1Line :=
  match query1 shows with
  | [] => [.noneFound]
  | res => res.map (fun s => .entry s.Title s.Rating)

/-- First-occurrence list of distinct values, the identities of SQL
`GROUP BY` groups. -/
def distinctFirst (l : List String) : List String :=
  l.foldl (fun acc t => if t ∈ acc then acc else acc ++ [t]) []

/-- The distinct non-NULL `Season` values that the Query-2 join (lines
127-134) associates with a group title `t`: seasons of episode rows whose
`parent_code` matches some show titled `t` that passes the rating filter.
`COUNT(DISTINCT e.Season)` ignores NULLs. -/
def joinSeasonsOfTitle (shows : List ShowsRow) (eps : List EpisodesRow) (t : String) : List Int :=
  ((eps.filter (fun e =>
      (lowRated shows).any (fun s =>
        decide (s.Title = t) && decide (s.Code = e.parent_code)))).filterMap
    (fun e => e.Season)).dedup

/-- Row order of `ORDER BY season_count DESC` (line 134). -/
def q2le (a b : String × Nat) : Prop := b.2 ≤ a.2

instance : DecidableRel q2le := fun a b => inferInstanceAs (Decidable (b.2 ≤ a.2))

/-- Query 2 (lines 127-134): note the source groups by `s.Title`, so the
group key is the title, not the show code. -/
def query2 (shows : List ShowsRow) (eps : List EpisodesRow) : List (String × Nat) :=
  List.insertionSort q2le
    (((distinctFirst ((lowRated shows).map (fun s => s.Title))).map
        (fun t => (t, (joinSeasonsOfTitle shows eps t).length))).filter
      (fun g => decide (1 < g.2)))

/-- Lexicographic row order for `ORDER BY RatingCount DESC, Rank ASC`
(line 149).  SQLite's sort comparator treats two NULLs in the first key as
equal and moves to the second key. -/
def optIntLexDescAsc (x1 y1 x2 y2 : Option Int) : Bool :=
  if x1 = x2 then sqlLeOptInt y1 y2 else sqlLeOptInt x2 x1

/-- Lexicographic row order for `ORDER BY RatingCount ASC, Rank DESC`
(line 178). -/
def optIntLexAscDesc (x1 y1 x2 y2 : Option Int) : Bool :=
  if x1 = x2 then sqlLeOptInt y2 y1 else sqlLeOptInt x1 x2

/-- Row order of Query 3's `ORDER BY RatingCount DESC, Rank ASC`. -/
def q3le (a b : ShowsRow) : Prop :=
  optIntLexDescAsc a.RatingCount a.Rank b.RatingCount b.Rank = true

instance : DecidableRel q3le := fun a b =>
  inferInstanceAs (Decidable (optIntLexDescAsc a.RatingCount a.Rank b.RatingCount b.Rank = true))

/-- Query 3 (lines 146-151): first row under `ORDER BY RatingCount DESC,
Rank ASC LIMIT 1`. -/
def query3 (shows : List ShowsRow) : Option ShowsRow :=
  (List.insertionSort q3le shows).head?

/-- Row order of Query 4's `ORDER BY RatingCount ASC, Rank DESC`. -/
def q4le (a b : ShowsRow) : Prop :=
  optIntLexAscDesc a.RatingCount a.Rank b.RatingCount b.Rank = true

instance : DecidableRel q4le := fun a b =>
  inferInstanceAs (Decidable (optIntLexAscDesc a.RatingCount a.Rank b.RatingCount b.Rank = true))

/-- Query 4 (lines 174-180): like Query 3 but restricted to
`RatingCount IS NOT NULL` and with the opposite ordering. -/
def query4 (shows : List ShowsRow) : Option ShowsRow :=
  (List.insertionSort q4le (shows.filter (fun s => s.RatingCount.isSome))).head?

/-- The `COUNT(*)` of the per-show episode lookup (lines 160-164 and
189-193): counts every matching row, NULL seasons included. -/
def epTotalCount (eps : List EpisodesRow) (code : String) : Nat :=
  (eps.filter (fun e => decide (e.parent_code = code))).length

/-- The `COUNT(DISTINCT Season)` of the per-show episode lookup: distinct
non-NULL season values of the matching rows. -/
def epSeasonCount (eps : List EpisodesRow) (code : String) : Nat :=
  (((eps.filter (fun e => decide (e.parent_code = code))).filterMap
      (fun e => e.Season)).dedup).length

/-! ## Order helper lemmas -/

lemma sqlLeOptQ_total (a b : Option ℚ) : sqlLeOptQ a b = true ∨ sqlLeOptQ b a = true := by
  cases a <;> cases b <;> simp [sqlLeOptQ]
  exact le_total _ _

lemma sqlLeOptQ_trans {a b c : Option ℚ} (h1 : sqlLeOptQ a b = true)
    (h2 : sqlLeOptQ b c = true) : sqlLeOptQ a c = true := by
  cases a <;> cases b <;> cases c <;> simp_all [sqlLeOptQ]
  exact le_trans h1 h2

lemma sqlLeOptInt_total (a b : Option Int) : sqlLeOptInt a b = true ∨ sqlLeOptInt b a = true := by
  cases a <;> cases b <;> simp [sqlLeOptInt]
  omega

lemma sqlLeOptInt_trans {a b c : Option Int} (h1 : sqlLeOptInt a b = true)
    (h2 : sqlLeOptInt b c = true) : sqlLeOptInt a c = true := by
  cases a <;> cases b <;> cases c <;> simp_all [sqlLeOptInt]
  omega

lemma sqlLeOptInt_antisymm {a b : Option Int} (h1 : sqlLeOptInt a b = true)
    (h2 : sqlLeOptInt b a = true) : a = b := by
  cases a <;> cases b <;> simp_all [sqlLeOptInt]
  omega

lemma sqlLtOptInt_ne {a b : Option Int} (h : sqlLtOptInt a b = true) : a ≠ b := by
  cases a <;> cases b <;> simp_all [sqlLtOptInt]
  omega

lemma sqlLtOptInt_not_ge {a b : Option Int} (h : sqlLtOptInt a b = true) :
    sqlLeOptInt b a = false := by
  cases a <;> cases b <;> simp_all [sqlLtOptInt, sqlLeOptInt]

lemma optIntLexDescAsc_total (x1 y1 x2 y2 : Option Int) :
    optIntLexDescAsc x1 y1 x2 y2 = true ∨ optIntLexDescAsc x2 y2 x1 y1 = true := by
  unfold optIntLexDescAsc
  by_cases h : x1 = x2
  · simp [h]
    exact sqlLeOptInt_total y1 y2
  · simp [h, Ne.symm h]
    exact sqlLeOptInt_total x2 x1

lemma optIntLexDescAsc_trans {x1 y1 x2 y2 x3 y3 : Option Int}
    (h1 : optIntLexDescAsc x1 y1 x2 y2 = true)
    (h2 : optIntLexDescAsc x2 y2 x3 y3 = true) :
    optIntLexDescAsc x1 y1 x3 y3 = true := by
  unfold optIntLexDescAsc at *
  by_cases e1 : x1 = x2 <;> by_cases e2 : x2 = x3
  · simp_all
    exact sqlLeOptInt_trans h1 h2
  · simp_all
  · simp_all [e2]
  · simp_all
    by_cases e3 : x1 = x3
    · exact absurd (sqlLeOptInt_antisymm (e3 ▸ h2) h1) e1
    · simpa [e3] using sqlLeOptInt_trans h2 h1

lemma optIntLexAscDesc_total (x1 y1 x2 y2 : Option Int) :
    optIntLexAscDesc x1 y1 x2 y2 = true ∨ optIntLexAscDesc x2 y2 x1 y1 = true := by
  unfold optIntLexAscDesc
  by_cases h : x1 = x2
  · simp [h]
    exact sqlLeOptInt_total y2 y1
  · simp [h, Ne.symm h]
    exact sqlLeOptInt_total x1 x2

lemma optIntLexAscDesc_trans {x1 y1 x2 y2 x3 y3 : Option Int}
    (h1 : optIntLexAscDesc x1 y1 x2 y2 = true)
    (h2 : optIntLexAscDesc x2 y2 x3 y3 = true) :
    optIntLexAscDesc x1 y1 x3 y3 = true := by
  unfold optIntLexAscDesc at *
  by_cases e1 : x1 = x2 <;> by_cases e2 : x2 = x3
  · simp_all
    exact sqlLeOptInt_trans h2 h1
  · simp_all
  · simp_all [e2]
  · simp_all
    by_cases e3 : x1 = x3
    · exact absurd (sqlLeOptInt_antisymm h1 (e3 ▸ h2)) e1
    · simpa [e3] using sqlLeOptInt_trans h1 h2

instance : IsTotal ShowsRow q1le :=
  ⟨fun a b => sqlLeOptQ_total b.Rating a.Rating⟩

instance : IsTrans ShowsRow q1le :=
  ⟨fun _ _ _ h1 h2 => sqlLeOptQ_trans h2 h1⟩

instance : IsTotal (String × Nat) q2le :=
  ⟨fun a b => Nat.le_total b.2 a.2⟩

instance : IsTrans (String × Nat) q2le :=
  ⟨fun _ _ _ h1 h2 => Nat.le_trans h2 h1⟩

instance : IsTotal ShowsRow q3le :=
  ⟨fun a b => optIntLexDescAsc_total a.RatingCount a.Rank b.RatingCount b.Rank⟩

instance : IsTrans ShowsRow q3le :=
  ⟨fun _ _ _ h1 h2 => optIntLexDescAsc_trans h1 h2⟩

instance : IsTotal ShowsRow q4le :=
  ⟨fun a b => optIntLexAscDesc_total a.RatingCount a.Rank b.RatingCount b.Rank⟩

instance : IsTrans ShowsRow q4le :=
  ⟨fun _ _ _ h1 h2 => optIntLexAscDesc_trans h1 h2⟩

/-! ## Load-phase helper lemmas -/

lemma create_database_and_tables_eq (st : Store) :
    create_database_and_tables st = .ok freshStore := rfl

/-- Spec-side description of the episode dedup policy: scan the batch in
input order, keeping a row when no already-kept row collides with it on
the composite key, and skipping it otherwise (`kept` is the accumulated
table). -/
def keepFirstByKeyAux : List EpisodesRow → List EpisodesRow → List EpisodesRow
  | _, [] => []
  | kept, r :: rs =>
    if kept.any (fun t => epKeyConflict t r) then keepFirstByKeyAux kept rs
    else r :: keepFirstByKeyAux (kept ++ [r]) rs

/-- Spec-side description of the episode load starting from an empty table. -/
def keepFirstByKey (rows : List EpisodesRow) : List EpisodesRow :=
  keepFirstByKeyAux [] rows

lemma executemanyInsertEpisodes_eq_keepAux :
    ∀ (rows tbl : List EpisodesRow),
      executemanyInsertEpisodes tbl rows = tbl ++ keepFirstByKeyAux tbl rows := by
  intro rows
  induction rows with
  | nil => intro tbl; simp [executemanyInsertEpisodes, keepFirstByKeyAux]
  | cons r rs ih =>
    intro tbl
    rw [show executemanyInsertEpisodes tbl (r :: rs)
          = executemanyInsertEpisodes (insertOrIgnoreEpisode tbl r) rs from rfl]
    by_cases h : (tbl.any fun t => epKeyConflict t r) = true
    · rw [show insertOrIgnoreEpisode tbl r = tbl from by simp [insertOrIgnoreEpisode, h]]
      rw [ih tbl]
      congr 1
      simp [keepFirstByKeyAux, h]
    · rw [show insertOrIgnoreEpisode tbl r = tbl ++ [r] from by
        simp [insertOrIgnoreEpisode, h]]
      rw [ih (tbl ++ [r]), List.append_assoc]
      congr 1
      simp [keepFirstByKeyAux, h]

lemma parseShowCsvRow_code {r : ShowCsvRow} {row : ShowsRow}
    (h : parseShowCsvRow r = .ok row) : row.Code = r.Code := by
  unfold parseShowCsvRow at h
  split at h
  · cases h
  · split at h
    · cases h
    · split at h
      · cases h
      · cases h
        rfl

lemma parseShowRows_codes :
    ∀ {srows : List ShowCsvRow} {parsed : List ShowsRow},
      parseShowRows srows = .ok parsed →
      parsed.map (fun p => p.Code) = srows.map (fun r => r.Code) := by
  intro srows
  induction srows with
  | nil =>
    intro parsed h
    unfold parseShowRows at h
    cases h
    rfl
  | cons r rs ih =>
    intro parsed h
    unfold parseShowRows at h
    split at h
    · cases h
    · next row heq =>
      split at h
      · cases h
      · next rows heq2 =>
        cases h
        simp only [List.map_cons]
        rw [parseShowCsvRow_code heq, ih heq2]

lemma executemanyShowsFold_dup :
    ∀ (rows tbl : List ShowsRow),
      (tbl.map (fun t => t.Code)).Nodup →
      ¬ (tbl.map (fun t => t.Code) ++ rows.map (fun r => r.Code)).Nodup →
      executemanyShowsFold tbl rows = .error .integrityError := by
  intro rows
  induction rows with
  | nil =>
    intro tbl h1 h2
    simp only [List.map_nil, List.append_nil] at h2
    exact absurd h1 h2
  | cons r rs ih =>
    intro tbl h1 h2
    unfold executemanyShowsFold insertShowRow
    by_cases hc : (tbl.any fun t => decide (t.Code = r.Code)) = true
    · simp [hc]
    · simp only [hc, Bool.false_eq_true, if_false]
      apply ih (tbl ++ [r])
      · simp only [List.map_append, List.map_cons, List.map_nil]
        rw [List.nodup_append]
        refine ⟨h1, List.nodup_singleton _, ?_⟩
        intro x hx hx2
        simp only [List.mem_singleton] at hx2
        subst hx2
        simp only [List.any_eq_true, decide_eq_true_eq] at hc
        simp only [List.mem_map] at hx
        obtain ⟨t, ht, htc⟩ := hx
        exact hc ⟨t, ht, htc⟩
      · intro hnd
        apply h2
        simpa [List.append_assoc] using hnd

deriving instance DecidableEq for Except

/-! ## Claims -/

/-- C9: schema initialization is idempotent.  From every prior storage
state, `create_database_and_tables` succeeds and yields an empty `shows`
table and an empty `episodes` table; calling it again on its own result
yields the same fresh state, and no leftover tables cause an error. -/
theorem c9_schema_init_idempotent :
    ∀ st : Store,
      create_database_and_tables st = .ok freshStore ∧
      (create_database_and_tables st).bind create_database_and_tables = .ok freshStore ∧
      freshStore.shows = some [] ∧ freshStore.episodes = some [] := by
  intro st
  refine ⟨create_database_and_tables_eq st, ?_, rfl, rfl⟩
  rw [create_database_and_tables_eq st]
  exact create_database_and_tables_eq freshStore

/-- C8 counterexample: a failure partway through the episode load does
NOT leave the Show table populated.  With a one-row show source that
parses fine and an episode source whose second row raises inside the
loop (Season `"²"` passes `isdigit` but `int()` rejects it), `ingest_data`
raises before the single `conn.commit()` at line 98, so the committed
store still has an empty `shows` table. -/
theorem c8_counterexample :
    parseShowRows [⟨"S1", "Alpha", "4.0", "1,000", "2"⟩]
      = .ok [⟨"S1", "Alpha", some 4, some 1000, some 2⟩] ∧
    parseEpisodeRows [⟨"e1", "S1", "1", "1", "4.0"⟩, ⟨"e2", "S1", "²", "1", "4.2"⟩]
      = .error .valueError ∧
    ingest_data (some [⟨"S1", "Alpha", "4.0", "1,000", "2"⟩])
        (some [⟨"e1", "S1", "1", "1", "4.0"⟩, ⟨"e2", "S1", "²", "1", "4.2"⟩])
        freshStore
      = (freshStore, some .valueError) ∧
    freshStore.shows = some [] := by
  refine ⟨by decide, by decide, by decide, rfl⟩

/-- C8 (amended): the two table loads run inside one implicit transaction
committed only by the single `conn.commit()` after both batches, so every
failure during `ingest_data` — including any failure partway through the
episode load — leaves the committed store exactly as it was: all-or-
nothing, never Show populated with Episode partial. -/
theorem c8_single_transaction (showSrc : Option (List ShowCsvRow))
    (epSrc : Option (List EpisodeCsvRow)) (st : Store) (e : PyError)
    (h : (ingest_data showSrc epSrc st).2 = some e) :
    (ingest_data showSrc epSrc st).1 = st := by
  unfold ingest_data at *
  cases showSrc with
  | none => rfl
  | some srows =>
    cases hp : parseShowRows srows with
    | error e2 => simp [hp]
    | ok parsed =>
      simp only [hp] at h ⊢
      cases hs : st.shows with
      | none => simp [hs]
      | some showsTbl =>
        simp only [hs] at h ⊢
        cases hf : executemanyShowsFold showsTbl parsed with
        | error e2 => simp [hf]
        | ok tbl2 =>
          simp only [hf] at h ⊢
          cases epSrc with
          | none => rfl
          | some erows =>
            cases hep : parseEpisodeRows erows with
            | error e2 => simp [hep]
            | ok eparsed =>
              simp only [hep] at h ⊢
              cases he : st.episodes with
              | none => simp [he]
              | some epsTbl => simp [he] at h

/-- C8 witness: a concrete failing load (missing show source) leaves the
committed store unchanged. -/
theorem c8_witness : (ingest_data none none freshStore).1 = freshStore :=
  c8_single_transaction none none freshStore .fileNotFound (by decide)

/-- C4: the `Rating Count` field parse — null exactly when the field is
empty; when non-empty, the comma-stripped remainder is converted by
`int()` (so `"12,345"` parses to `12345`); and the loader stores exactly
this parse in the row. -/
theorem c4_rating_count_parse :
    (∀ s : String, parseRatingCountField s = .ok none ↔ s = "") ∧
    (∀ (s : String) (n : Int), s ≠ "" → pyInt (pyStripCommas s) = some n →
      parseRatingCountField s = .ok (some n)) ∧
    parseRatingCountField "12,345" = .ok (some 12345) ∧
    parseRatingCountField "" = .ok none ∧
    (∀ (r : ShowCsvRow) (row : ShowsRow), parseShowCsvRow r = .ok row →
      parseRatingCountField r.RatingCount = .ok row.RatingCount) := by
  refine ⟨?_, ?_, by decide, by decide, ?_⟩
  · intro s
    unfold parseRatingCountField
    by_cases h : s = ""
    · simp [h]
    · simp only [h, ne_eq, not_false_eq_true, if_true]
      cases pyInt (pyStripCommas s) <;> simp [h]
  · intro s n h1 h2
    simp [parseRatingCountField, h1, h2]
  · intro r row h
    unfold parseShowCsvRow at h
    split at h
    · cases h
    · next rc heq =>
      split at h
      · cases h
      · split at h
        · cases h
        · cases h
          exact heq

/-- C4 witness: the parse lemma applied at the concrete field `"1,0"`. -/
theorem c4_witness : parseRatingCountField "1,0" = .ok (some 10) :=
  c4_rating_count_parse.2.1 "1,0" 10 (by decide) (by decide)

/-- C3 counterexample: the Season/Episode parse is not total.  The string
`"²"` consists entirely of digit characters in Python's sense
(`"²".isdigit()` is true), yet `int("²")` raises, so the parse raises
`ValueError` instead of producing an integer or null. -/
theorem c3_counterexample :
    pyStrIsDigit "²" = true ∧ parseSeasonEpisodeField "²" = .error .valueError := by
  exact ⟨by decide, by decide⟩

/-- C3 (amended): a `Season`/`Episode` field failing `isdigit` (including
the empty string and `"abc"`) coerces to null without error, and a
nonempty all-decimal-digit string parses to its integer value; but a
string passing `isdigit` while containing a non-decimal digit character
raises `ValueError`, so the parse is not total over all strings. -/
theorem c3_season_parse (s : String) :
    (pyStrIsDigit s = false → parseSeasonEpisodeField s = .ok none) ∧
    (s.data ≠ [] → (∀ c ∈ s.data, (pyCharDecimalVal c).isSome = true) →
      ∃ n : Int, pyInt s = some n ∧ parseSeasonEpisodeField s = .ok (some n)) ∧
    ((∃ c ∈ s.data, pyCharDecimalVal c = none) → pyStrIsDigit s = true →
      parseSeasonEpisodeField s = .error .valueError) := by
  refine ⟨?_, ?_, ?_⟩
  · intro h
    simp [parseSeasonEpisodeField, h]
  · intro h1 h2
    have hempty : s.data.isEmpty = false := by
      cases hd : s.data with
      | nil => exact absurd hd h1
      | cons c cs => rfl
    have hcond : s.data.all (fun c => (pyCharDecimalVal c).isSome) = true := by
      rw [List.all_eq_true]
      exact h2
    have hd : pyStrIsDigit s = true := by
      unfold pyStrIsDigit
      rw [hempty]
      simp only [Bool.not_false, Bool.true_and]
      rw [List.all_eq_true]
      intro c hc
      simp [pyCharIsDigit, h2 c hc]
    have hint : pyInt s = some ((s.data.foldl
        (fun a c => a * 10 + ((pyCharDecimalVal c).getD 0)) 0 : Nat) : Int) := by
      unfold pyInt decDigitsVal decDigitsValAllowEmpty
      rw [hempty, hcond]
      rfl
    refine ⟨_, hint, ?_⟩
    simp [parseSeasonEpisodeField, hd, hint]
  · intro hex hd
    have hnotall : s.data.all (fun c => (pyCharDecimalVal c).isSome) = false := by
      obtain ⟨c, hc, hnone⟩ := hex
      rw [List.all_eq_false]
      exact ⟨c, hc, by simp [hnone]⟩
    have hint : pyInt s = none := by
      unfold pyInt decDigitsVal decDigitsValAllowEmpty
      rw [hnotall]
      cases he : s.data.isEmpty <;> rfl
    simp [parseSeasonEpisodeField, hd, hint]

/-- C3 witness: the amended parse lemma applied at `"abc"` and `"42"`. -/
theorem c3_witness :
    parseSeasonEpisodeField "abc" = .ok none ∧
    parseSeasonEpisodeField "42" = .ok (some 42) := by
  constructor
  · exact (c3_season_parse "abc").1 (by decide)
  · obtain ⟨n, hn, hp⟩ := (c3_season_parse "42").2.1 (by decide) (by decide)
    have h42 : pyInt "42" = some 42 := by decide
    rw [h42] at hn
    obtain rfl : (42 : Int) = n := Option.some.inj hn
    exact hp

lemma epKeyConflict_iff {a b : EpisodesRow}
    (ha : a.Season.isSome ∧ a.Episode.isSome) (hb : b.Season.isSome ∧ b.Episode.isSome) :
    epKeyConflict a b = true ↔ episodeKey a = episodeKey b := by
  obtain ⟨s1, hs1⟩ := Option.isSome_iff_exists.mp ha.1
  obtain ⟨e1, he1⟩ := Option.isSome_iff_exists.mp ha.2
  obtain ⟨s2, hs2⟩ := Option.isSome_iff_exists.mp hb.1
  obtain ⟨e2, he2⟩ := Option.isSome_iff_exists.mp hb.2
  simp [epKeyConflict, episodeKey, hs1, he1, hs2, he2, and_assoc]

lemma executemanyInsertEpisodes_length_full :
    ∀ (rows tbl : List EpisodesRow),
      (∀ e ∈ rows, e.Season.isSome ∧ e.Episode.isSome) →
      (∀ e ∈ tbl, e.Season.isSome ∧ e.Episode.isSome) →
      (tbl.map episodeKey).Nodup →
      (executemanyInsertEpisodes tbl rows).length
        = ((tbl ++ rows).map episodeKey).toFinset.card := by
  intro rows
  induction rows with
  | nil =>
    intro tbl _ _ hnd
    simp only [executemanyInsertEpisodes, List.foldl_nil, List.append_nil]
    rw [List.toFinset_card_of_nodup hnd, List.length_map]
  | cons r rs ih =>
    intro tbl hrows htbl hnd
    have hr := hrows r (List.mem_cons_self r rs)
    have hrs : ∀ e ∈ rs, e.Season.isSome ∧ e.Episode.isSome :=
      fun e he => hrows e (List.mem_cons_of_mem r he)
    rw [show executemanyInsertEpisodes tbl (r :: rs)
          = executemanyInsertEpisodes (insertOrIgnoreEpisode tbl r) rs from rfl]
    by_cases h : (tbl.any fun t => epKeyConflict t r) = true
    · have hkey : episodeKey r ∈ tbl.map episodeKey := by
        rw [List.any_eq_true] at h
        obtain ⟨t, ht, hc⟩ := h
        rw [epKeyConflict_iff (htbl t ht) hr] at hc
        exact hc ▸ List.mem_map_of_mem episodeKey ht
      rw [show insertOrIgnoreEpisode tbl r = tbl from by simp [insertOrIgnoreEpisode, h]]
      rw [ih tbl hrs htbl hnd]
      congr 1
      simp only [List.map_append, List.map_cons, List.toFinset_append, List.toFinset_cons]
      rw [Finset.union_insert,
        Finset.insert_eq_self.mpr (Finset.mem_union_left _ (List.mem_toFinset.mpr hkey))]
    · have hkeynot : episodeKey r ∉ tbl.map episodeKey := by
        intro hmem
        obtain ⟨t, ht, hkt⟩ := List.mem_map.mp hmem
        apply h
        rw [List.any_eq_true]
        exact ⟨t, ht, (epKeyConflict_iff (htbl t ht) hr).mpr hkt⟩
      rw [show insertOrIgnoreEpisode tbl r = tbl ++ [r] from by
        simp [insertOrIgnoreEpisode, h]]
      rw [ih (tbl ++ [r]) hrs ?_ ?_]
      · congr 1
        rw [List.append_assoc, List.singleton_append]
      · intro e he
        rcases List.mem_append.mp he with h1 | h1
        · exact htbl e h1
        · rw [List.mem_singleton.mp h1]
          exact hr
      · simp only [List.map_append, List.map_cons, List.map_nil]
        rw [List.nodup_append]
        exact ⟨hnd, List.nodup_singleton _,
          fun x hx hx2 => hkeynot (List.mem_singleton.mp hx2 ▸ hx)⟩

/-- C1 counterexample: two episode rows sharing the `(Code, Season,
Episode)` tuple after null-coercion — Season `"abc"` coerces to null in
both — are BOTH retained: SQLite permits NULLs in the composite primary
key and its unique index treats NULLs as distinct, so `INSERT OR IGNORE`
sees no conflict.  The final row count is 2 while there is exactly 1
distinct key tuple. -/
theorem c1_counterexample :
    parseEpisodeRows [⟨"e1", "S1", "abc", "1", ""⟩, ⟨"e2", "S1", "abc", "1", ""⟩]
      = .ok [⟨"e1", "S1", none, some 1, none⟩, ⟨"e2", "S1", none, some 1, none⟩] ∧
    executemanyInsertEpisodes []
        [⟨"e1", "S1", none, some 1, none⟩, ⟨"e2", "S1", none, some 1, none⟩]
      = [⟨"e1", "S1", none, some 1, none⟩, ⟨"e2", "S1", none, some 1, none⟩] ∧
    episodeKey ⟨"e1", "S1", none, some 1, none⟩
      = episodeKey ⟨"e2", "S1", none, some 1, none⟩ ∧
    ([(⟨"e1", "S1", none, some 1, none⟩ : EpisodesRow),
      ⟨"e2", "S1", none, some 1, none⟩].map episodeKey).dedup.length = 1 := by
  exact ⟨by decide, by decide, by decide, by decide⟩

/-- C1 (amended): the episode load keeps, in input-file order, exactly
those rows not colliding with an already-kept row on the composite key
(`keepFirstByKey`), so the first occurrence of each fully-non-null
`(parent_code, Season, Episode)` tuple is retained and later duplicates
are silently dropped; rows whose Season or Episode is null never collide
and are all retained.  When every row of the source has non-null Season
and Episode, the final row count equals the number of distinct key
tuples. -/
theorem c1_episode_dedup :
    (∀ rows : List EpisodesRow, executemanyInsertEpisodes [] rows = keepFirstByKey rows) ∧
    (∀ rows : List EpisodesRow,
      (∀ e ∈ rows, e.Season.isSome ∧ e.Episode.isSome) →
      (executemanyInsertEpisodes [] rows).length = (rows.map episodeKey).dedup.length) := by
  constructor
  · intro rows
    rw [executemanyInsertEpisodes_eq_keepAux rows [], List.nil_append]
    rfl
  · intro rows hfull
    rw [executemanyInsertEpisodes_length_full rows [] hfull (by simp) (by simp),
      List.nil_append, List.card_toFinset]

/-- C1 witness: the dedup lemma applied to a concrete three-row batch
with one duplicate key. -/
theorem c1_witness :
    executemanyInsertEpisodes []
        [⟨"e1", "S1", some 1, some 1, none⟩, ⟨"e2", "S1", some 1, some 2, none⟩,
         ⟨"e3", "S1", some 1, some 1, none⟩]
      = keepFirstByKey
        [⟨"e1", "S1", some 1, some 1, none⟩, ⟨"e2", "S1", some 1, some 2, none⟩,
         ⟨"e3", "S1", some 1, some 1, none⟩] ∧
    (executemanyInsertEpisodes []
        [⟨"e1", "S1", some 1, some 1, none⟩, ⟨"e2", "S1", some 1, some 2, none⟩,
         ⟨"e3", "S1", some 1, some 1, none⟩]).length
      = ([(⟨"e1", "S1", some 1, some 1, none⟩ : EpisodesRow),
          ⟨"e2", "S1", some 1, some 2, none⟩,
          ⟨"e3", "S1", some 1, some 1, none⟩].map episodeKey).dedup.length :=
  ⟨c1_episode_dedup.1 _, c1_episode_dedup.2 _ (by decide)⟩

/-- C2: a show source with two rows sharing a `Code` makes the plain
`INSERT` batch hit the `TEXT PRIMARY KEY` and raise
`sqlite3.IntegrityError` (when all rows convert; any conversion failure
still raises), the load aborts, and `run_reports` never executes. -/
theorem c2_dup_show_code_aborts (st0 : Store) (srows : List ShowCsvRow)
    (epSrc : Option (List EpisodeCsvRow))
    (hdup : ¬ (srows.map (fun r => r.Code)).Nodup) :
    (mainRun st0 (some srows) epSrc).2 = false ∧
    (ingest_data (some srows) epSrc freshStore).2.isSome = true ∧
    (∀ parsed, parseShowRows srows = .ok parsed →
      (ingest_data (some srows) epSrc freshStore).2 = some .integrityError) := by
  have key : (ingest_data (some srows) epSrc freshStore).2.isSome = true ∧
      (∀ parsed, parseShowRows srows = .ok parsed →
        (ingest_data (some srows) epSrc freshStore).2 = some .integrityError) := by
    cases hp : parseShowRows srows with
    | error e =>
      refine ⟨by simp [ingest_data, hp], ?_⟩
      intro parsed h
      exact Except.noConfusion h
    | ok parsed =>
      have hfold : executemanyShowsFold [] parsed = .error .integrityError := by
        apply executemanyShowsFold_dup parsed []
        · simp
        · simp only [List.map_nil, List.nil_append]
          rw [parseShowRows_codes hp]
          exact hdup
      refine ⟨by simp [ingest_data, hp, freshStore, hfold], ?_⟩
      intro parsed2 h
      obtain rfl : parsed = parsed2 := Except.ok.inj h
      simp [ingest_data, hp, freshStore, hfold]

  refine ⟨?_, key.1, key.2⟩
  obtain ⟨e, he⟩ := Option.isSome_iff_exists.mp key.1
  cases hi : ingest_data (some srows) epSrc freshStore with
  | mk st2 oerr =>
    rw [hi] at he
    cases oerr with
    | none => exact Option.noConfusion he
    | some e2 => simp [mainRun, create_database_and_tables_eq st0, hi]

/-- C2 witness: a concrete two-row show source with duplicate code `"S1"`
aborts before reporting with an `IntegrityError`. -/
theorem c2_witness :
    (mainRun freshStore
        (some [⟨"S1", "A", "", "", ""⟩, ⟨"S1", "B", "", "", ""⟩]) none).2 = false ∧
    (ingest_data (some [⟨"S1", "A", "", "", ""⟩, ⟨"S1", "B", "", "", ""⟩])
        none freshStore).2 = some .integrityError := by
  have h := c2_dup_show_code_aborts freshStore
    [⟨"S1", "A", "", "", ""⟩, ⟨"S1", "B", "", "", ""⟩] none (by decide)
  exact ⟨h.1, h.2.2 [⟨"S1", "A", none, none, none⟩, ⟨"S1", "B", none, none, none⟩]
    (by decide)⟩

/-- C5: Query 1 returns exactly the shows whose rating is non-null and at
most 5.0, sorted by rating descending; on a Show table with ratings
3.0, 5.0, 5.5 and null it returns exactly the 5.0 and 3.0 shows with 5.0
first; and an empty result prints the explicit none-found line instead of
nothing. -/
theorem c5_query1 :
    (∀ (shows : List ShowsRow) (s : ShowsRow),
      s ∈ query1 shows ↔ s ∈ shows ∧ ∃ r, s.Rating = some r ∧ r ≤ 5) ∧
    (∀ shows : List ShowsRow, List.Sorted q1le (query1 shows)) ∧
    query1 [⟨"S1", "Alpha", some 3, none, none⟩, ⟨"S2", "Beta", some 5, none, none⟩,
            ⟨"S3", "Gamma", some (mkRat 11 2), none, none⟩,
            ⟨"S4", "Delta", none, none, none⟩]
      = [⟨"S2", "Beta", some 5, none, none⟩, ⟨"S1", "Alpha", some 3, none, none⟩] ∧
    (∀ shows : List ShowsRow, query1 shows = [] → report1 shows = [.noneFound]) := by
  refine ⟨?_, ?_, by decide, ?_⟩
  · intro shows s
    rw [query1, List.mem_insertionSort, lowRated, List.mem_filter]
    apply and_congr_right
    intro _
    cases hr : s.Rating with
    | none => simp [lowRatedB, hr]
    | some r => simp [lowRatedB, hr]
  · intro shows
    exact List.sorted_insertionSort q1le _
  · intro shows h
    simp [report1, h]

/-- C5 witness: the empty-result clause applied to a table whose only
show is rated 5.5. -/
theorem c5_witness :
    report1 [⟨"S3", "Gamma", some (mkRat 11 2), none, none⟩] = [.noneFound] :=
  c5_query1.2.2.2 _ (by decide)

/-- C6: Query 2 groups by `s.Title`, not by show.  Two distinct shows
that share the title `"X"`, each rated 4.0 and each having exactly one
distinct season, are merged into a single group whose distinct-season
count is 2, and that group is reported — even though no single show has
more than one season. -/
theorem c6_group_by_title :
    query2 [⟨"S1", "X", some 4, none, none⟩, ⟨"S2", "X", some 4, none, none⟩]
        [⟨"e1", "S1", some 1, some 1, none⟩, ⟨"e2", "S2", some 2, some 1, none⟩]
      = [("X", 2)] ∧
    epSeasonCount [⟨"e1", "S1", some 1, some 1, none⟩,
        ⟨"e2", "S2", some 2, some 1, none⟩] "S1" = 1 ∧
    epSeasonCount [⟨"e1", "S1", some 1, some 1, none⟩,
        ⟨"e2", "S2", some 2, some 1, none⟩] "S2" = 1 := by
  exact ⟨by decide, by decide, by decide⟩

/-- C7: when a single show holds the strict maximum `RatingCount`
(every other row's count is strictly below it in the SQLite order, NULLs
counting as smallest), Query 3 returns that show; if the same show's
count is also a minimum among all non-null counts, Query 4 returns the
same show. -/
theorem c7_query3_query4 (shows : List ShowsRow) (m : ShowsRow) (c : Int)
    (hm : m ∈ shows) (hc : m.RatingCount = some c)
    (hmax : ∀ s ∈ shows, s ≠ m → sqlLtOptInt s.RatingCount (some c) = true) :
    query3 shows = some m ∧
    ((∀ s ∈ shows, ∀ cx : Int, s.RatingCount = some cx → c ≤ cx) →
      query4 shows = some m) := by
  constructor
  · unfold query3
    have hmem : m ∈ List.insertionSort q3le shows := (List.mem_insertionSort q3le).mpr hm
    cases hL : List.insertionSort q3le shows with
    | nil =>
      rw [hL] at hmem
      cases hmem
    | cons h t =>
      rw [hL] at hmem
      have hsorted := List.sorted_insertionSort q3le shows
      rw [hL] at hsorted
      have hh : h ∈ shows := by
        rw [← List.mem_insertionSort q3le, hL]
        exact List.mem_cons_self h t
      by_cases hhm : h = m
      · rw [hhm]
        rfl
      · exfalso
        have hlt := hmax h hh hhm
        have hq : q3le h m := by
          rcases List.mem_cons.mp hmem with heq | hmt
          · exact absurd heq.symm hhm
          · exact List.rel_of_sorted_cons hsorted m hmt
        unfold q3le optIntLexDescAsc at hq
        rw [hc] at hq
        rw [if_neg (sqlLtOptInt_ne hlt)] at hq
        rw [sqlLtOptInt_not_ge hlt] at hq
        exact Bool.noConfusion hq
  · intro hmin
    unfold query4
    have hmF : m ∈ shows.filter (fun s => s.RatingCount.isSome) := by
      rw [List.mem_filter]
      exact ⟨hm, by rw [hc]; rfl⟩
    have hallm : ∀ x ∈ shows.filter (fun s => s.RatingCount.isSome), x = m := by
      intro x hx
      rw [List.mem_filter] at hx
      obtain ⟨hxs, hxsome⟩ := hx
      by_contra hne
      obtain ⟨cx, hcx⟩ := Option.isSome_iff_exists.mp hxsome
      have h1 := hmax x hxs hne
      have h2 := hmin x hxs cx hcx
      rw [hcx] at h1
      have : cx < c := by simpa [sqlLtOptInt] using h1
      omega
    have hmem : m ∈ List.insertionSort q4le (shows.filter (fun s => s.RatingCount.isSome)) :=
      (List.mem_insertionSort q4le).mpr hmF
    cases hL : List.insertionSort q4le (shows.filter (fun s => s.RatingCount.isSome)) with
    | nil =>
      rw [hL] at hmem
      cases hmem
    | cons h t =>
      have hh : h ∈ shows.filter (fun s => s.RatingCount.isSome) := by
        rw [← List.mem_insertionSort q4le, hL]
        exact List.mem_cons_self h t
      show some h = some m
      rw [hallm h hh]

/-- C7 witness: a single-show dataset, where the one show holds both the
maximum rating count and the minimum non-null rating count. -/
theorem c7_witness :
    query3 [⟨"S1", "A", some 4, some 10, some 1⟩]
      = some ⟨"S1", "A", some 4, some 10, some 1⟩ ∧
    query4 [⟨"S1", "A", some 4, some 10, some 1⟩]
      = some ⟨"S1", "A", some 4, some 10, some 1⟩ := by
  have h := c7_query3_query4 [⟨"S1", "A", some 4, some 10, some 1⟩]
    ⟨"S1", "A", some 4, some 10, some 1⟩ 10 (by decide) (by decide) (by decide)
  refine ⟨h.1, h.2 ?_⟩
  intro s hs cx hcx
  rw [List.mem_singleton] at hs
  subst hs
  have := Option.some.inj hcx
  omega

lemma filterMap_season_filter (eps : List EpisodesRow) (P : EpisodesRow → Bool) :
    (eps.filter P).filterMap (fun e => e.Season)
      = ((eps.filter (fun e => e.Season.isSome)).filter P).filterMap (fun e => e.Season) := by
  induction eps with
  | nil => rfl
  | cons e es ih =>
    cases hSeason : e.Season with
    | none => by_cases hp : P e = true <;>
        simp [List.filter_cons, List.filterMap_cons, hp, hSeason, ih]
    | some v => by_cases hp : P e = true <;>
        simp [List.filter_cons, List.filterMap_cons, hp, hSeason, ih]

/-- C10 counterexample: the exclusion is not per show.  The show `"S1"`
is rated 4.0 and every one of its episode rows has a null Season, yet its
title `"X"` appears in Query 2's results (with season count 2), because a
second show `"S2"` shares the title and the query groups by title. -/
theorem c10_counterexample :
    query2 [⟨"S1", "X", some 4, none, none⟩, ⟨"S2", "X", some 4, none, none⟩]
        [⟨"a1", "S1", none, some 1, none⟩, ⟨"a2", "S1", none, some 2, none⟩,
         ⟨"b1", "S2", some 1, some 1, none⟩, ⟨"b2", "S2", some 2, some 1, none⟩]
      = [("X", 2)] ∧
    lowRatedB ⟨"S1", "X", some 4, none, none⟩ = true ∧
    ([(⟨"a1", "S1", none, some 1, none⟩ : EpisodesRow), ⟨"a2", "S1", none, some 2, none⟩,
      ⟨"b1", "S2", some 1, some 1, none⟩, ⟨"b2", "S2", some 2, some 1, none⟩].filter
        (fun e => decide (e.parent_code = "S1"))).all (fun e => decide (e.Season = none))
      = true := by
  exact ⟨by decide, by decide, by decide⟩

/-- C10 (amended): null Season values never contribute to any
distinct-season count — appending a null-Season episode row raises the
`COUNT(*)` total by one and leaves every `COUNT(DISTINCT Season)`
unchanged, and the Query-2 join counts are computed from the non-null
Season rows alone; consequently a show with rating at most 5 all of whose
episodes have null Season is absent from Query 2's results provided no
other low-rated show shares its title (grouping is by title, so a
same-titled second show can still put the title in the results). -/
theorem c10_null_seasons :
    (∀ (eps : List EpisodesRow) (e : EpisodesRow), e.Season = none →
      epTotalCount (eps ++ [e]) e.parent_code = epTotalCount eps e.parent_code + 1 ∧
      (∀ code : String, epSeasonCount (eps ++ [e]) code = epSeasonCount eps code)) ∧
    (∀ (shows : List ShowsRow) (eps : List EpisodesRow) (t : String),
      joinSeasonsOfTitle shows eps t
        = joinSeasonsOfTitle shows (eps.filter (fun e => e.Season.isSome)) t) ∧
    (∀ (shows : List ShowsRow) (eps : List EpisodesRow) (s : ShowsRow),
      s ∈ shows → lowRatedB s = true →
      (∀ s2 ∈ shows, s2.Title = s.Title → lowRatedB s2 = true → s2.Code = s.Code) →
      (∀ e ∈ eps, e.parent_code = s.Code → e.Season = none) →
      s.Title ∉ (query2 shows eps).map Prod.fst) := by
  refine ⟨?_, ?_, ?_⟩
  · intro eps e h
    constructor
    · simp [epTotalCount, List.filter_append]
    · intro code
      by_cases hcode : e.parent_code = code <;>
        simp [epSeasonCount, List.filter_append, List.filterMap_append, h, hcode]
  · intro shows eps t
    unfold joinSeasonsOfTitle
    rw [filterMap_season_filter]
  · intro shows eps s hs hlow huniq hnull hmemT
    obtain ⟨p, hp, hfst⟩ := List.mem_map.mp hmemT
    rw [query2, List.mem_insertionSort, List.mem_filter] at hp
    obtain ⟨hp1, hp2⟩ := hp
    obtain ⟨t2, ht2, hpt⟩ := List.mem_map.mp hp1
    subst hpt
    simp only [decide_eq_true_eq] at hp2
    have ht : t2 = s.Title := hfst
    rw [ht] at hp2
    have hempty : joinSeasonsOfTitle shows eps s.Title = [] := by
      unfold joinSeasonsOfTitle
      have hfm : (eps.filter (fun e =>
          (lowRated shows).any (fun s2 =>
            decide (s2.Title = s.Title) && decide (s2.Code = e.parent_code)))).filterMap
            (fun e => e.Season) = [] := by
        rw [List.filterMap_eq_nil_iff]
        intro e he
        rw [List.mem_filter] at he
        obtain ⟨heps, hany⟩ := he
        rw [List.any_eq_true] at hany
        obtain ⟨s2, hs2low, hcond⟩ := hany
        rw [lowRated, List.mem_filter] at hs2low
        obtain ⟨hs2mem, hs2lowB⟩ := hs2low
        simp only [Bool.and_eq_true, decide_eq_true_eq] at hcond
        obtain ⟨htitle, hcode⟩ := hcond
        have hsc : s2.Code = s.Code := huniq s2 hs2mem htitle hs2lowB
        exact hnull e heps (hcode.symm.trans hsc)
      rw [hfm]
      rfl
    rw [hempty] at hp2
    simp at hp2

/-- C10 witness: the exclusion clause applied to a single low-rated show
whose two episode rows both have null Season. -/
theorem c10_witness :
    "X" ∉ (query2 [⟨"S1", "X", some 4, none, none⟩]
        [⟨"a1", "S1", none, some 1, none⟩, ⟨"a2", "S1", none, some 2, none⟩]).map
        Prod.fst := by
  have h := c10_null_seasons.2.2 [⟨"S1", "X", some 4, none, none⟩]
    [⟨"a1", "S1", none, some 1, none⟩, ⟨"a2", "S1", none, some 2, none⟩]
    ⟨"S1", "X", some 4, none, none⟩ (by decide) (by decide) (by decide) (by decide)
  exact h

end Teleparty
